import Mathlib

/-
Verification of the actor-cell core of the riker actor framework
(src/actor/actor_cell.rs), as a shallow embedding in Lean 4.

The embedding models the per-actor container `ActorCell`, its typed wrapper
`ExtendedCell`, the `Children` registry, the `Context` selection logic, and
the supervision operations (`terminate`, `restart`, `death_watch`,
`handle_failure`).  Side effects performed through external collaborators
(system-message sends, kernel terminate/restart calls, `post_stop`
invocations, dead-letter publishes) are reified as an explicit `Effect`
trace returned by each operation.  Fallible operations (those that unwrap
an `Option` in the Rust source) return `Option`/`Except`, with `none`
standing for the panic branch.
-/

set_option autoImplicit false

namespace Riker

/-- Identity of an actor reference, flattened from the Rust `BasicActorRef`
(which wraps a cell): process-unique id, name, and slash-joined path. -/
structure BasicActorRef where
  uid : Nat
  name : String
  path : String
deriving DecidableEq

/-- System commands, from `crate::system::SystemCmd` (`Stop`, `Restart`). -/
inductive SystemCmd where
  | stop
  | restart
deriving DecidableEq

/-- System messages, from `crate::system::SystemMsg`: a command, or a
failure notification carrying the failed actor's reference. -/
inductive SystemMsg where
  | command (cmd : SystemCmd)
  | failed (who : BasicActorRef)
deriving DecidableEq

/-- A dead letter: stringified payload, original sender, original
recipient (matches the `DeadLetter` struct filled in `send_msg`). -/
structure DeadLetter where
  msg : String
  sender : Option BasicActorRef
  recipient : BasicActorRef
deriving DecidableEq

/-- Reified side effects of cell operations: system-message sends,
kernel terminate/restart calls, `post_stop` invocations, and dead-letter
publishes to the pub/sub channel. -/
inductive Effect where
  | sysTell (target : BasicActorRef) (msg : SystemMsg)
  | kernelTerminate
  | kernelRestart
  | postStop
  | publish (topic : String) (letter : DeadLetter)
deriving DecidableEq

/-- Handle to the execution kernel (`KernelRef`); only its identity
matters here. -/
structure KernelRef where
  kid : Nat
deriving DecidableEq

/-- A message envelope: payload plus optional sender. -/
structure Envelope (M : Type) where
  msg : M
  sender : Option BasicActorRef
deriving DecidableEq

/-- The error raised when a mailbox dispatch fails; it carries the failed
envelope so the caller can recover it (`MsgError`/`SendError` in the
source). -/
structure SendError (M : Type) where
  msg : Envelope M
deriving DecidableEq

/-- A typed mailbox sender (`MailboxSender<M>`): only its observable
closed/open state matters for the dispatch contract. -/
structure Mailbox (M : Type) where
  closed : Bool
deriving DecidableEq

/-- A type-erased message (`AnyMessage`): a type tag standing for the
erased payload type, and the consume-once flag. -/
structure AnyMessage where
  tag : Nat
  one_shot : Bool
deriving DecidableEq

/-- The type-erased mailbox sender (`Arc<dyn AnySender>`): closed/open
state plus the message-type tag the cell's actor accepts. -/
structure AnySender where
  closed : Bool
  accepts : Nat
deriving DecidableEq

/-- Actor identity URI: `{ name, path, host }`. -/
structure ActorUri where
  name : String
  path : String
  host : String
deriving DecidableEq

/-- The actor system handle, reduced to the collaborator the embedded
operations consult: the user-root reference. -/
structure ActorSystem where
  user_root : BasicActorRef
deriving DecidableEq

/-- The `Children` registry: the Rust source keeps a
`HashMap<String, BasicActorRef>` keyed by child name; it is embedded as
an association list with unique keys. -/
abbrev Children := List (String × BasicActorRef)

/-- `Children::add`: `HashMap::insert(actor.name(), actor)` — replaces the
entry stored under the actor's name, or appends a new entry. -/
def Children.add (cs : Children) (actor : BasicActorRef) : Children :=
  match cs with
  | [] => [(actor.name, actor)]
  | p :: rest =>
    if p.1 = actor.name then (actor.name, actor) :: rest
    else p :: Children.add rest actor

/-- `Children::remove`: `HashMap::remove(actor.name())` — deletes the
entry stored under the actor's name (a no-op when absent). -/
def Children.remove (cs : Children) (actor : BasicActorRef) : Children :=
  match cs with
  | [] => []
  | p :: rest =>
    if p.1 = actor.name then rest else p :: Children.remove rest actor

/-- `Children::len`. -/
def Children.len (cs : Children) : Nat := cs.length

/-- Lookup of the entry stored under a name (the map-read view of the
`HashMap`). -/
def Children.lookup (cs : Children) (name : String) : Option BasicActorRef :=
  match cs with
  | [] => none
  | p :: rest => if p.1 = name then some p.2 else Children.lookup rest name

namespace ChildrenLemmas

theorem add_cons_pos (p : String × BasicActorRef) (rest : Children)
    (r : BasicActorRef) (hp : p.1 = r.name) :
    Children.add (p :: rest) r = (r.name, r) :: rest := by
  simp [Children.add, hp]

theorem add_cons_neg (p : String × BasicActorRef) (rest : Children)
    (r : BasicActorRef) (hp : ¬ p.1 = r.name) :
    Children.add (p :: rest) r = p :: Children.add rest r := by
  simp [Children.add, hp]

theorem remove_cons_pos (p : String × BasicActorRef) (rest : Children)
    (r : BasicActorRef) (hp : p.1 = r.name) :
    Children.remove (p :: rest) r = rest := by
  simp [Children.remove, hp]

theorem remove_cons_neg (p : String × BasicActorRef) (rest : Children)
    (r : BasicActorRef) (hp : ¬ p.1 = r.name) :
    Children.remove (p :: rest) r = p :: Children.remove rest r := by
  simp [Children.remove, hp]

theorem lookup_add_self (cs : Children) (r : BasicActorRef) :
    Children.lookup (Children.add cs r) r.name = some r := by
  induction cs with
  | nil => simp [Children.add, Children.lookup]
  | cons p rest ih =>
    by_cases h : p.1 = r.name
    · simp [Children.add, Children.lookup, h]
    · simp [Children.add, Children.lookup, h, ih]

theorem length_add_of_present (cs : Children) (r : BasicActorRef)
    (h : Children.lookup cs r.name ≠ none) :
    (Children.add cs r).length = cs.length := by
  induction cs with
  | nil => simp [Children.lookup] at h
  | cons p rest ih =>
    by_cases hp : p.1 = r.name
    · simp [Children.add, hp]
    · simp only [Children.lookup, hp, if_neg] at h
      simp [Children.add, hp, ih h]

theorem lookup_eq_none_of_not_mem (cs : Children) (name : String)
    (h : name ∉ cs.map Prod.fst) : Children.lookup cs name = none := by
  induction cs with
  | nil => simp [Children.lookup]
  | cons p rest ih =>
    simp only [List.map_cons, List.mem_cons] at h
    push_neg at h
    have hp : p.1 ≠ name := Ne.symm h.1
    simp [Children.lookup, hp, ih h.2]

theorem lookup_remove_self (cs : Children) (r : BasicActorRef)
    (hnodup : (cs.map Prod.fst).Nodup) :
    Children.lookup (Children.remove cs r) r.name = none := by
  induction cs with
  | nil => simp [Children.remove, Children.lookup]
  | cons p rest ih =>
    simp only [List.map_cons, List.nodup_cons] at hnodup
    by_cases hp : p.1 = r.name
    · rw [remove_cons_pos p rest r hp]
      exact lookup_eq_none_of_not_mem rest r.name (hp ▸ hnodup.1)
    · rw [remove_cons_neg p rest r hp]
      simp [Children.lookup, hp, ih hnodup.2]

theorem remove_of_absent (cs : Children) (r : BasicActorRef)
    (h : Children.lookup cs r.name = none) :
    Children.remove cs r = cs := by
  induction cs with
  | nil => simp [Children.remove]
  | cons p rest ih =>
    by_cases hp : p.1 = r.name
    · simp [Children.lookup, hp] at h
    · simp only [Children.lookup, hp, if_neg] at h
      simp [Children.remove, hp, ih h]

theorem mem_keys_add (cs : Children) (r : BasicActorRef) (n : String)
    (h : n ∈ (Children.add cs r).map Prod.fst) :
    n ∈ cs.map Prod.fst ∨ n = r.name := by
  induction cs with
  | nil =>
    simp only [Children.add, List.map_cons, List.map_nil, List.mem_singleton] at h
    exact Or.inr h
  | cons p rest ih =>
    by_cases hp : p.1 = r.name
    · rw [add_cons_pos p rest r hp] at h
      simp only [List.map_cons, List.mem_cons] at h
      rcases h with h | h
      · exact Or.inr h
      · exact Or.inl (by simp [h])
    · rw [add_cons_neg p rest r hp] at h
      simp only [List.map_cons, List.mem_cons] at h
      rcases h with h | h
      · exact Or.inl (by simp [h])
      · rcases ih h with h' | h'
        · exact Or.inl (by simp [h'])
        · exact Or.inr h'

theorem nodup_keys_add (cs : Children) (r : BasicActorRef)
    (hnodup : (cs.map Prod.fst).Nodup) :
    ((Children.add cs r).map Prod.fst).Nodup := by
  induction cs with
  | nil => simp [Children.add]
  | cons p rest ih =>
    simp only [List.map_cons, List.nodup_cons] at hnodup
    by_cases hp : p.1 = r.name
    · rw [add_cons_pos p rest r hp]
      simp only [List.map_cons, List.nodup_cons]
      exact ⟨hp ▸ hnodup.1, hnodup.2⟩
    · rw [add_cons_neg p rest r hp]
      simp only [List.map_cons, List.nodup_cons]
      refine ⟨?_, ih hnodup.2⟩
      intro hmem
      rcases mem_keys_add rest r p.1 hmem with h' | h'
      · exact hnodup.1 h'
      · exact hp h'

theorem remove_sublist (cs : Children) (r : BasicActorRef) :
    (Children.remove cs r).Sublist cs := by
  induction cs with
  | nil => simp [Children.remove]
  | cons p rest ih =>
    by_cases hp : p.1 = r.name
    · rw [remove_cons_pos p rest r hp]
      exact List.sublist_cons_self p rest
    · rw [remove_cons_neg p rest r hp]
      exact List.Sublist.cons₂ p ih

theorem nodup_keys_remove (cs : Children) (r : BasicActorRef)
    (hnodup : (cs.map Prod.fst).Nodup) :
    ((Children.remove cs r).map Prod.fst).Nodup :=
  List.Nodup.sublist (List.Sublist.map Prod.fst (remove_sublist cs r)) hnodup

end ChildrenLemmas

/-- C9: `add` stores the reference keyed by its name with last-write-wins
semantics — after adding two same-named references the map holds exactly
one entry for that name, equal to the later reference, and `len` does not
grow on the collision; `remove` deletes the entry stored under the name
and is a no-op when absent; key uniqueness is preserved by `add` and
`remove`, so child names are unique in every reachable state. -/
theorem children_registry_spec (cs : Children) (r1 r2 r : BasicActorRef)
    (hname : r1.name = r2.name)
    (habs : Children.lookup cs r.name = none)
    (hnodup : (cs.map Prod.fst).Nodup) :
    Children.lookup (Children.add (Children.add cs r1) r2) r2.name = some r2 ∧
    (Children.add (Children.add cs r1) r2).length = (Children.add cs r1).length ∧
    Children.lookup (Children.remove (Children.add cs r1) r1) r1.name = none ∧
    Children.remove cs r = cs ∧
    ((Children.add cs r1).map Prod.fst).Nodup ∧
    ((Children.remove cs r).map Prod.fst).Nodup := by
  refine ⟨ChildrenLemmas.lookup_add_self _ r2, ?_, ?_, ?_, ?_, ?_⟩
  · apply ChildrenLemmas.length_add_of_present
    rw [← hname]
    simp [ChildrenLemmas.lookup_add_self cs r1]
  · exact ChildrenLemmas.lookup_remove_self _ r1
      (ChildrenLemmas.nodup_keys_add cs r1 hnodup)
  · exact ChildrenLemmas.remove_of_absent cs r habs
  · exact ChildrenLemmas.nodup_keys_add cs r1 hnodup
  · exact ChildrenLemmas.nodup_keys_remove cs r hnodup

/-- Witness for C9 at concrete inputs. -/
theorem children_registry_spec_witness :
    (⟨7, "b", "/user/b"⟩ : BasicActorRef).name = (⟨8, "b", "/user/b2"⟩ : BasicActorRef).name ∧
    Children.lookup [("a", ⟨1, "a", "/user/a"⟩)] (⟨9, "z", "/user/z"⟩ : BasicActorRef).name = none ∧
    (([("a", (⟨1, "a", "/user/a"⟩ : BasicActorRef))] : Children).map Prod.fst).Nodup ∧
    (Children.lookup (Children.add (Children.add [("a", ⟨1, "a", "/user/a"⟩)] ⟨7, "b", "/user/b"⟩) ⟨8, "b", "/user/b2"⟩) "b" = some ⟨8, "b", "/user/b2"⟩ ∧
     (Children.add (Children.add [("a", ⟨1, "a", "/user/a"⟩)] ⟨7, "b", "/user/b"⟩) ⟨8, "b", "/user/b2"⟩).length = (Children.add [("a", ⟨1, "a", "/user/a"⟩)] ⟨7, "b", "/user/b"⟩).length ∧
     Children.lookup (Children.remove (Children.add [("a", ⟨1, "a", "/user/a"⟩)] ⟨7, "b", "/user/b"⟩) ⟨7, "b", "/user/b"⟩) "b" = none ∧
     Children.remove [("a", ⟨1, "a", "/user/a"⟩)] ⟨9, "z", "/user/z"⟩ = [("a", ⟨1, "a", "/user/a"⟩)] ∧
     ((Children.add [("a", ⟨1, "a", "/user/a"⟩)] ⟨7, "b", "/user/b"⟩).map Prod.fst).Nodup ∧
     ((Children.remove [("a", ⟨1, "a", "/user/a"⟩)] ⟨9, "z", "/user/z"⟩).map Prod.fst).Nodup) :=
  ⟨by decide, by decide, by decide,
   children_registry_spec [("a", ⟨1, "a", "/user/a"⟩)] ⟨7, "b", "/user/b"⟩
     ⟨8, "b", "/user/b2"⟩ ⟨9, "z", "/user/z"⟩ (by decide) (by decide) (by decide)⟩

/-- The actor cell (`ActorCell` / `ActorCellInner`), with the
reference-counted inner struct flattened.  `kernel` is `none` until `init`
runs. -/
structure ActorCell where
  uid : Nat
  uri : ActorUri
  parent : Option BasicActorRef
  children : Children
  is_remote : Bool
  is_terminating : Bool
  is_restarting : Bool
  status : Nat
  kernel : Option KernelRef
  system : ActorSystem
  mailbox : AnySender
  sys_mailbox : Mailbox SystemMsg
deriving DecidableEq

/-- `ActorCell::new`: empty children, cleared flags, zero status, and no
kernel handle. -/
def ActorCell.new (uid : Nat) (uri : ActorUri) (parent : Option BasicActorRef)
    (system : ActorSystem) (mailbox : AnySender)
    (sys_mailbox : Mailbox SystemMsg) : ActorCell :=
  { uid := uid, uri := uri, parent := parent, children := [],
    is_remote := false, is_terminating := false, is_restarting := false,
    status := 0, kernel := none, system := system, mailbox := mailbox,
    sys_mailbox := sys_mailbox }

/-- `ActorCell::init`: builds a fresh cell value whose inner struct is a
clone of the old one with `kernel` set. -/
def ActorCell.init (c : ActorCell) (kernel : KernelRef) : ActorCell :=
  { c with kernel := some kernel }

/-- `ActorCell::myself`, flattened to the cell's identity triple. -/
def ActorCell.myself (c : ActorCell) : BasicActorRef :=
  { uid := c.uid, name := c.uri.name, path := c.uri.path }

/-- `ActorCell::has_children`: `children.len() > 0`. -/
def ActorCell.has_children (c : ActorCell) : Bool :=
  decide (0 < Children.len c.children)

/-- `ActorCell::is_root`: `uid == 0`. -/
def ActorCell.is_root (c : ActorCell) : Bool :=
  c.uid == 0

/-- `ActorCell::is_child`: iterates the children comparing references.
Modelled from the spec: `BasicActorRef` equality (crate::actor, not under
src/) is identity equality — two references are equal iff they have the
same `uid`. -/
def ActorCell.is_child (c : ActorCell) (actor : BasicActorRef) : Bool :=
  c.children.any (fun p => p.2.uid == actor.uid)

/-- `ActorCell::add_child`: `children.add(actor)`. -/
def ActorCell.add_child (c : ActorCell) (actor : BasicActorRef) : ActorCell :=
  { c with children := Children.add c.children actor }

/-- `ActorCell::remove_child`: `children.remove(actor)`. -/
def ActorCell.remove_child (c : ActorCell) (actor : BasicActorRef) : ActorCell :=
  { c with children := Children.remove c.children actor }

/-- The effect of `ActorCell::stop`: `actor.sys_tell(SystemCmd::Stop.into())`. -/
def stopEffect (actor : BasicActorRef) : Effect :=
  Effect.sysTell actor (SystemMsg.command SystemCmd.stop)

/-- The effect of `ActorCell::restart_child`:
`actor.sys_tell(SystemCmd::Restart.into())`. -/
def restartChildEffect (actor : BasicActorRef) : Effect :=
  Effect.sysTell actor (SystemMsg.command SystemCmd.restart)

/-- The free function `post_stop`: runs the actor's `post_stop` hook only
when the actor instance exists. -/
def post_stop {A : Type} (actor : Option A) : List Effect :=
  match actor with
  | some _ => [Effect.postStop]
  | none => []

/-- `ActorCell::terminate`: store `is_terminating`; with no children,
unwrap the kernel (`none` = the panic branch of `kernel()`), call
`kernel.terminate` and run `post_stop`; otherwise send `Stop` to every
child. -/
def ActorCell.terminate {A : Type} (c : ActorCell) (actor : Option A) :
    Option (ActorCell × List Effect) :=
  let c1 := { c with is_terminating := true }
  if !c1.has_children then
    match c1.kernel with
    | none => none
    | some _ => some (c1, Effect.kernelTerminate :: post_stop actor)
  else
    some (c1, c1.children.map (fun p => stopEffect p.2))

/-- `ActorCell::restart`: with no children, unwrap the kernel and call
`kernel.restart`; otherwise store `is_restarting` and send `Stop` to
every child. -/
def ActorCell.restart (c : ActorCell) : Option (ActorCell × List Effect) :=
  if !c.has_children then
    match c.kernel with
    | none => none
    | some _ => some (c, [Effect.kernelRestart])
  else
    some ({ c with is_restarting := true },
          c.children.map (fun p => stopEffect p.2))

/-- `ActorCell::death_watch`: when the terminated actor is a child,
remove it; if no children remain, run the terminating branch
(`kernel.terminate` + `post_stop`) when `is_terminating` is set, then the
restarting branch (clear `is_restarting`, `kernel.restart`) when
`is_restarting` is set. -/
def ActorCell.death_watch {A : Type} (c : ActorCell)
    (terminated : BasicActorRef) (actor : Option A) :
    Option (ActorCell × List Effect) :=
  if c.is_child terminated then
    let c1 := { c with children := Children.remove c.children terminated }
    if !c1.has_children then
      let termStep : Option (List Effect) :=
        if c1.is_terminating then
          match c1.kernel with
          | none => none
          | some _ => some (Effect.kernelTerminate :: post_stop actor)
        else some []
      match termStep with
      | none => none
      | some e1 =>
        if c1.is_restarting then
          match c1.kernel with
          | none => none
          | some _ =>
            some ({ c1 with is_restarting := false },
                  e1 ++ [Effect.kernelRestart])
        else some (c1, e1)
    else some (c1, [])
  else some (c, [])

/-- `ActorCell::receive_cmd`: dispatch a system command to `terminate`
or `restart`. -/
def ActorCell.receive_cmd {A : Type} (c : ActorCell) (cmd : SystemCmd)
    (actor : Option A) : Option (ActorCell × List Effect) :=
  match cmd with
  | SystemCmd.stop => c.terminate actor
  | SystemCmd.restart => c.restart

/-- `ActorCell::escalate_failure`: unwrap the parent (`none` = the panic
branch of the absent-parent unwrap) and send it `Failed(self)`. -/
def ActorCell.escalate_failure (c : ActorCell) : Option (List Effect) :=
  match c.parent with
  | none => none
  | some p => some [Effect.sysTell p (SystemMsg.failed c.myself)]

/-- The supervision strategies. -/
inductive Strategy where
  | stop
  | restart
  | escalate
deriving DecidableEq

/-- `ActorCell::handle_failure`: apply the supervisor decision to a
failed child. -/
def ActorCell.handle_failure (c : ActorCell) (failed : BasicActorRef)
    (strategy : Strategy) : Option (ActorCell × List Effect) :=
  match strategy with
  | Strategy.stop => some (c, [stopEffect failed])
  | Strategy.restart => some (c, [restartChildEffect failed])
  | Strategy.escalate => (c.escalate_failure).map (fun effs => (c, effs))

/-- Concrete fixtures used by witnesses. -/
def sysW : ActorSystem := { user_root := { uid := 1, name := "user", path := "/user" } }

def mbW : AnySender := { closed := false, accepts := 0 }

def smbW : Mailbox SystemMsg := { closed := false }

def kW : KernelRef := { kid := 3 }

def childW : BasicActorRef := { uid := 7, name := "c", path := "/user/a/c" }

def cellLeafW : ActorCell :=
  { uid := 5, uri := { name := "a", path := "/user/a", host := "localhost" },
    parent := some { uid := 1, name := "user", path := "/user" },
    children := [], is_remote := false, is_terminating := false,
    is_restarting := false, status := 0, kernel := some kW, system := sysW,
    mailbox := mbW, sys_mailbox := smbW }

def cellParentW : ActorCell := { cellLeafW with children := [("c", childW)] }

def cellTermW : ActorCell := { cellParentW with is_terminating := true }

def cellRestW : ActorCell := { cellParentW with is_restarting := true }

def rootCellW : ActorCell :=
  { uid := 0, uri := { name := "", path := "/", host := "localhost" },
    parent := none, children := [], is_remote := false,
    is_terminating := false, is_restarting := false, status := 0,
    kernel := some kW, system := sysW, mailbox := mbW, sys_mailbox := smbW }

/-- C1: consuming `Stop` (`receive_cmd` → `terminate`) first sets
`is_terminating`; with no children it emits `kernel.terminate` and runs
`post_stop` exactly when the actor instance is `some`; with children it
sends `Stop` to every child and emits neither `kernel.terminate` nor
`post_stop`; and `death_watch` removing the last remaining child while
`is_terminating` holds emits `kernel.terminate` with `post_stop` under
the same `some`-instance condition. -/
theorem stop_cmd_spec {A : Type} (c d : ActorCell) (actor actd : Option A)
    (k kd : KernelRef) (t : BasicActorRef)
    (hk : c.kernel = some k) (hkd : d.kernel = some kd)
    (hchild : d.is_child t = true)
    (hterm : d.is_terminating = true)
    (hlast : Children.remove d.children t = []) :
    (∃ c1 effs, c.receive_cmd SystemCmd.stop actor = some (c1, effs) ∧
      c1.is_terminating = true ∧
      (c.children = [] → effs = Effect.kernelTerminate :: post_stop actor) ∧
      (c.children ≠ [] →
        effs = c.children.map (fun p => stopEffect p.2) ∧
        Effect.kernelTerminate ∉ effs ∧ Effect.postStop ∉ effs)) ∧
    (∃ d1 effsd, d.death_watch t actd = some (d1, effsd) ∧
      Effect.kernelTerminate ∈ effsd ∧
      (Effect.postStop ∈ effsd ↔ actd.isSome = true)) := by
  constructor
  · by_cases hch : c.children = []
    · refine ⟨{ c with is_terminating := true },
              Effect.kernelTerminate :: post_stop actor, ?_, rfl, ?_, ?_⟩
      · simp [ActorCell.receive_cmd, ActorCell.terminate, ActorCell.has_children,
              Children.len, hch, hk]
      · intro _; rfl
      · intro hne; exact absurd hch hne
    · obtain ⟨q, rest, hch'⟩ := List.exists_cons_of_ne_nil hch
      refine ⟨{ c with is_terminating := true },
              c.children.map (fun p => stopEffect p.2), ?_, rfl, ?_, ?_⟩
      · simp [ActorCell.receive_cmd, ActorCell.terminate, ActorCell.has_children,
              Children.len, hch']
      · intro h0; exact absurd h0 hch
      · intro _
        refine ⟨rfl, ?_, ?_⟩
        · intro hmem
          simp only [List.mem_map, stopEffect] at hmem
          obtain ⟨x, _, hx⟩ := hmem
          exact Effect.noConfusion hx
        · intro hmem
          simp only [List.mem_map, stopEffect] at hmem
          obtain ⟨x, _, hx⟩ := hmem
          exact Effect.noConfusion hx
  · cases hrest : d.is_restarting with
    | false =>
      refine ⟨{ d with children := [] },
              Effect.kernelTerminate :: post_stop actd, ?_, ?_, ?_⟩
      · simp [ActorCell.death_watch, hchild, hlast, ActorCell.has_children,
              Children.len, hterm, hkd, hrest]
      · simp
      · cases actd <;> simp [post_stop, Option.isSome]
    | true =>
      refine ⟨{ d with children := [], is_restarting := false },
              (Effect.kernelTerminate :: post_stop actd) ++ [Effect.kernelRestart],
              ?_, ?_, ?_⟩
      · simp [ActorCell.death_watch, hchild, hlast, ActorCell.has_children,
              Children.len, hterm, hkd, hrest]
      · simp
      · cases actd <;> simp [post_stop, Option.isSome]

/-- Witness for C1 at concrete inputs: a childless cell consuming `Stop`,
and a one-child terminating cell watching its last child die. -/
theorem stop_cmd_spec_witness :
    (∃ c1 effs, cellLeafW.receive_cmd SystemCmd.stop (some ()) = some (c1, effs) ∧
      c1.is_terminating = true ∧
      (cellLeafW.children = [] → effs = Effect.kernelTerminate :: post_stop (some ())) ∧
      (cellLeafW.children ≠ [] →
        effs = cellLeafW.children.map (fun p => stopEffect p.2) ∧
        Effect.kernelTerminate ∉ effs ∧ Effect.postStop ∉ effs)) ∧
    (∃ d1 effsd, cellTermW.death_watch childW (some ()) = some (d1, effsd) ∧
      Effect.kernelTerminate ∈ effsd ∧
      (Effect.postStop ∈ effsd ↔ (some ()).isSome = true)) :=
  stop_cmd_spec cellLeafW cellTermW (some ()) (some ()) kW kW childW
    (by decide) (by decide) (by decide) (by decide) (by decide)

/-- C2: consuming `Restart` with no children emits `kernel.restart` at
once and leaves the cell (hence `is_restarting`) unchanged; with N ≥ 1
children it sets `is_restarting`, sends exactly one `Stop` per child and
does not emit `kernel.restart`; the `death_watch` call removing the last
remaining child clears `is_restarting` and emits exactly one
`kernel.restart`. -/
theorem restart_cmd_spec {A : Type} (c d : ActorCell) (k kd : KernelRef)
    (t : BasicActorRef) (actd : Option A)
    (hk : c.kernel = some k) (hkd : d.kernel = some kd)
    (hchild : d.is_child t = true)
    (hrest : d.is_restarting = true)
    (hterm : d.is_terminating = false)
    (hlast : Children.remove d.children t = []) :
    (c.children = [] → c.restart = some (c, [Effect.kernelRestart])) ∧
    (c.children ≠ [] →
      c.restart = some ({ c with is_restarting := true },
                        c.children.map (fun p => stopEffect p.2)) ∧
      (c.children.map (fun p => stopEffect p.2)).length = c.children.length ∧
      Effect.kernelRestart ∉ c.children.map (fun p => stopEffect p.2)) ∧
    d.death_watch t actd =
      some ({ d with children := [], is_restarting := false },
            [Effect.kernelRestart]) := by
  refine ⟨?_, ?_, ?_⟩
  · intro hch
    simp [ActorCell.restart, ActorCell.has_children, Children.len, hch, hk]
  · intro hch
    refine ⟨?_, by simp, ?_⟩
    · obtain ⟨q, rest, hch'⟩ := List.exists_cons_of_ne_nil hch
      simp [ActorCell.restart, ActorCell.has_children, Children.len, hch']
    · intro hmem
      simp only [List.mem_map, stopEffect] at hmem
      obtain ⟨x, _, hx⟩ := hmem
      exact Effect.noConfusion hx
  · simp [ActorCell.death_watch, hchild, hlast, ActorCell.has_children,
          Children.len, hterm, hrest, hkd]

/-- Witness for C2 at concrete inputs: a one-child cell consuming
`Restart`, and the restarting cell watching its last child die. -/
theorem restart_cmd_spec_witness :
    (cellParentW.children = [] →
      cellParentW.restart = some (cellParentW, [Effect.kernelRestart])) ∧
    (cellParentW.children ≠ [] →
      cellParentW.restart = some ({ cellParentW with is_restarting := true },
                        cellParentW.children.map (fun p => stopEffect p.2)) ∧
      (cellParentW.children.map (fun p => stopEffect p.2)).length = cellParentW.children.length ∧
      Effect.kernelRestart ∉ cellParentW.children.map (fun p => stopEffect p.2)) ∧
    cellRestW.death_watch childW (some ()) =
      some ({ cellRestW with children := [], is_restarting := false },
            [Effect.kernelRestart]) :=
  restart_cmd_spec cellParentW cellRestW kW kW childW (some ())
    (by decide) (by decide) (by decide) (by decide) (by decide) (by decide)

/-- C3: `handle_failure` sends exactly one system message fixed by the
strategy — `Stop` to the failed child, `Restart` to the failed child, or
`Failed(self)` to the parent — and returns the cell unchanged (children
map and lifecycle flags untouched). -/
theorem handle_failure_spec (c : ActorCell) (failed p : BasicActorRef)
    (hp : c.parent = some p) :
    c.handle_failure failed Strategy.stop =
      some (c, [Effect.sysTell failed (SystemMsg.command SystemCmd.stop)]) ∧
    c.handle_failure failed Strategy.restart =
      some (c, [Effect.sysTell failed (SystemMsg.command SystemCmd.restart)]) ∧
    c.handle_failure failed Strategy.escalate =
      some (c, [Effect.sysTell p (SystemMsg.failed c.myself)]) := by
  refine ⟨rfl, rfl, ?_⟩
  simp [ActorCell.handle_failure, ActorCell.escalate_failure, hp]

/-- Witness for C3 at concrete inputs. -/
theorem handle_failure_spec_witness :
    cellParentW.handle_failure childW Strategy.stop =
      some (cellParentW, [Effect.sysTell childW (SystemMsg.command SystemCmd.stop)]) ∧
    cellParentW.handle_failure childW Strategy.restart =
      some (cellParentW, [Effect.sysTell childW (SystemMsg.command SystemCmd.restart)]) ∧
    cellParentW.handle_failure childW Strategy.escalate =
      some (cellParentW, [Effect.sysTell { uid := 1, name := "user", path := "/user" }
        (SystemMsg.failed cellParentW.myself)]) :=
  handle_failure_spec cellParentW childW { uid := 1, name := "user", path := "/user" }
    (by decide)

/-- C4: on a root cell (uid 0, no parent), escalation is a terminal
failure — `escalate_failure` reaches the error branch of the absent
parent unwrap and delivers no `Failed` message, and so does
`handle_failure` with the `Escalate` strategy. -/
theorem root_escalate_spec (c : ActorCell) (failed : BasicActorRef)
    (_hroot : c.uid = 0) (hp : c.parent = none) :
    c.escalate_failure = none ∧
    c.handle_failure failed Strategy.escalate = none := by
  simp [ActorCell.escalate_failure, ActorCell.handle_failure, hp]

/-- Witness for C4 at the concrete root cell. -/
theorem root_escalate_spec_witness :
    rootCellW.escalate_failure = none ∧
    rootCellW.handle_failure childW Strategy.escalate = none :=
  root_escalate_spec rootCellW childW (by decide) (by decide)

/-- Modelled from the spec: `dispatch` lives in
`crate::kernel::kernel_ref` (not under src/); per §6 the mailbox sender's
try_send returns a `SendError` carrying the failed envelope exactly when
the mailbox is closed, and `Ok` otherwise. -/
def dispatch {M : Type} (msg : Envelope M) (mb : Mailbox M) :
    Except (SendError M) Unit :=
  if mb.closed then Except.error { msg := msg } else Except.ok ()

/-- Modelled from the spec: `dispatch_any` lives in
`crate::kernel::kernel_ref` (not under src/); type-erased dispatch fails
if the downcast to the cell's expected message type fails or the mailbox
is closed. -/
def dispatch_any (msg : AnyMessage) (_sender : Option BasicActorRef)
    (mb : AnySender) : Except Unit Unit :=
  if mb.closed || msg.tag != mb.accepts then Except.error () else Except.ok ()

/-- `ActorCell::send_sys_msg`: unwrap the kernel, then dispatch through
the system mailbox, returning the dispatch result unchanged and emitting
no effects. -/
def ActorCell.send_sys_msg (c : ActorCell) (msg : Envelope SystemMsg) :
    Option (Except (SendError SystemMsg) Unit × List Effect) :=
  match c.kernel with
  | none => none
  | some _ => some (dispatch msg c.sys_mailbox, [])

/-- `ActorCell::send_any_msg`: unwrap the kernel, then dispatch the
erased message through the untyped mailbox. -/
def ActorCell.send_any_msg (c : ActorCell) (msg : AnyMessage)
    (sender : Option BasicActorRef) : Option (Except Unit Unit) :=
  match c.kernel with
  | none => none
  | some _ => some (dispatch_any msg sender c.mailbox)

/-- The typed cell (`ExtendedCell<Msg>`): an untyped cell plus a typed
mailbox sender. -/
structure ExtendedCell (M : Type) where
  cell : ActorCell
  mailbox : Mailbox M

/-- `ExtendedCell::send_msg`: unwrap the kernel, dispatch through the
typed mailbox; on error build a `DeadLetter` from the failed envelope
inside the error (Debug formatting abstracted as `fmt`), publish it once
on the "dead_letter" topic, and return the original error. -/
def ExtendedCell.send_msg {M : Type} (e : ExtendedCell M) (fmt : M → String)
    (msg : Envelope M) :
    Option (Except (SendError M) Unit × List Effect) :=
  match e.cell.kernel with
  | none => none
  | some _ =>
    match dispatch msg e.mailbox with
    | Except.ok _ => some (Except.ok (), [])
    | Except.error err =>
      some (Except.error err,
            [Effect.publish "dead_letter"
              { msg := fmt err.msg.msg, sender := err.msg.sender,
                recipient := e.cell.myself }])

/-- `ExtendedCell::send_sys_msg`: delegates to the inner cell. -/
def ExtendedCell.send_sys_msg {M : Type} (e : ExtendedCell M)
    (msg : Envelope SystemMsg) :
    Option (Except (SendError SystemMsg) Unit × List Effect) :=
  e.cell.send_sys_msg msg

/-- C6: on a typed envelope, if the mailbox dispatch fails then exactly
one dead letter — Debug-formatted payload, original sender, the cell's
own reference as recipient — is published on the "dead_letter" topic and
the original error, still carrying the failed envelope, is returned; on
success no dead letter is published and `Ok` is returned. -/
theorem send_msg_dead_letter_spec {M : Type} (e : ExtendedCell M)
    (fmt : M → String) (env : Envelope M) (k : KernelRef)
    (hk : e.cell.kernel = some k) :
    (e.mailbox.closed = true →
      e.send_msg fmt env =
        some (Except.error { msg := env },
              [Effect.publish "dead_letter"
                { msg := fmt env.msg, sender := env.sender,
                  recipient := e.cell.myself }])) ∧
    (e.mailbox.closed = false →
      e.send_msg fmt env = some (Except.ok (), [])) := by
  constructor
  · intro hcl
    simp [ExtendedCell.send_msg, dispatch, hk, hcl]
  · intro hcl
    simp [ExtendedCell.send_msg, dispatch, hk, hcl]

/-- Witness for C6 at concrete inputs: a closed and an open mailbox. -/
theorem send_msg_dead_letter_spec_witness :
    (({ cell := cellLeafW, mailbox := { closed := true } } : ExtendedCell Nat).mailbox.closed = true →
      ({ cell := cellLeafW, mailbox := { closed := true } } : ExtendedCell Nat).send_msg
          (fun n => toString n) { msg := 42, sender := some childW } =
        some (Except.error { msg := { msg := 42, sender := some childW } },
              [Effect.publish "dead_letter"
                { msg := toString 42, sender := some childW,
                  recipient := cellLeafW.myself }])) ∧
    (({ cell := cellLeafW, mailbox := { closed := true } } : ExtendedCell Nat).mailbox.closed = false →
      ({ cell := cellLeafW, mailbox := { closed := true } } : ExtendedCell Nat).send_msg
          (fun n => toString n) { msg := 42, sender := some childW } =
        some (Except.ok (), [])) :=
  send_msg_dead_letter_spec { cell := cellLeafW, mailbox := { closed := true } }
    (fun n => toString n) { msg := 42, sender := some childW } kW rfl

/-- C7: `send_sys_msg` (on the cell and on the typed wrapper) returns the
system-mailbox dispatch result to the caller unchanged — on a closed
mailbox the error surfaces, no dead letter is published (the effect trace
is empty), and the cell is untouched. -/
theorem send_sys_msg_spec {M : Type} (c : ActorCell) (e : ExtendedCell M)
    (env env2 : Envelope SystemMsg) (k k2 : KernelRef)
    (hk : c.kernel = some k) (_hk2 : e.cell.kernel = some k2) :
    c.send_sys_msg env = some (dispatch env c.sys_mailbox, []) ∧
    (c.sys_mailbox.closed = true →
      c.send_sys_msg env = some (Except.error { msg := env }, [])) ∧
    e.send_sys_msg env2 = e.cell.send_sys_msg env2 := by
  refine ⟨?_, ?_, rfl⟩
  · simp [ActorCell.send_sys_msg, hk]
  · intro hcl
    simp [ActorCell.send_sys_msg, dispatch, hk, hcl]

/-- Witness for C7 at concrete inputs: a cell with a closed system
mailbox. -/
theorem send_sys_msg_spec_witness :
    ({ cellLeafW with sys_mailbox := { closed := true } } : ActorCell).send_sys_msg
        { msg := SystemMsg.command SystemCmd.stop, sender := none } =
      some (dispatch { msg := SystemMsg.command SystemCmd.stop, sender := none }
              ({ cellLeafW with sys_mailbox := { closed := true } } : ActorCell).sys_mailbox, []) ∧
    (({ cellLeafW with sys_mailbox := { closed := true } } : ActorCell).sys_mailbox.closed = true →
      ({ cellLeafW with sys_mailbox := { closed := true } } : ActorCell).send_sys_msg
          { msg := SystemMsg.command SystemCmd.stop, sender := none } =
        some (Except.error { msg := { msg := SystemMsg.command SystemCmd.stop, sender := none } }, [])) ∧
    ({ cell := cellLeafW, mailbox := smbW } : ExtendedCell SystemMsg).send_sys_msg
        { msg := SystemMsg.command SystemCmd.stop, sender := none } =
      ({ cell := cellLeafW, mailbox := smbW } : ExtendedCell SystemMsg).cell.send_sys_msg
        { msg := SystemMsg.command SystemCmd.stop, sender := none } :=
  send_sys_msg_spec { cellLeafW with sys_mailbox := { closed := true } }
    { cell := cellLeafW, mailbox := smbW }
    { msg := SystemMsg.command SystemCmd.stop, sender := none }
    { msg := SystemMsg.command SystemCmd.stop, sender := none } kW kW rfl rfl

/-- C10: the kernel handle is `none` at construction and set only by
`init`, which returns a fresh cell value; the Arc-shared fields
(children, flags, status) are common to the pre- and post-`init` values;
every kernel-resolving operation — `send_any_msg`, `send_sys_msg`, the
childless branches of `terminate`/`restart`, and the last-child flagged
branches of `death_watch` — reaches the `Option`-unwrap failure branch
on a pre-`init` cell. -/
theorem kernel_init_spec {A : Type} (c : ActorCell) (k : KernelRef)
    (uid : Nat) (uri : ActorUri) (parent : Option BasicActorRef)
    (sys : ActorSystem) (mb : AnySender) (smb : Mailbox SystemMsg)
    (msg : AnyMessage) (sender : Option BasicActorRef)
    (env : Envelope SystemMsg) (t : BasicActorRef) (actor : Option A)
    (hk : c.kernel = none) :
    (ActorCell.new uid uri parent sys mb smb).kernel = none ∧
    (c.init k).kernel = some k ∧
    (c.init k).children = c.children ∧
    (c.init k).is_terminating = c.is_terminating ∧
    (c.init k).is_restarting = c.is_restarting ∧
    (c.init k).status = c.status ∧
    c.send_any_msg msg sender = none ∧
    c.send_sys_msg env = none ∧
    (c.children = [] → c.terminate actor = none ∧ c.restart = none) ∧
    (c.is_child t = true → Children.remove c.children t = [] →
      (c.is_terminating = true ∨ c.is_restarting = true) →
      c.death_watch t actor = none) := by
  refine ⟨rfl, rfl, rfl, rfl, rfl, rfl, ?_, ?_, ?_, ?_⟩
  · simp [ActorCell.send_any_msg, hk]
  · simp [ActorCell.send_sys_msg, hk]
  · intro hch
    constructor
    · simp [ActorCell.terminate, ActorCell.has_children, Children.len, hch, hk]
    · simp [ActorCell.restart, ActorCell.has_children, Children.len, hch, hk]
  · intro hchild hlast hflag
    rcases hflag with hft | hfr
    · simp [ActorCell.death_watch, hchild, hlast, ActorCell.has_children,
            Children.len, hft, hk]
    · cases hft2 : c.is_terminating with
      | true =>
        simp [ActorCell.death_watch, hchild, hlast, ActorCell.has_children,
              Children.len, hft2, hk]
      | false =>
        simp [ActorCell.death_watch, hchild, hlast, ActorCell.has_children,
              Children.len, hft2, hfr, hk]

/-- A pre-`init` cell with a child and the terminating flag set, used by
the C10 witness. -/
def preInitCellW : ActorCell :=
  { cellTermW with kernel := none }

/-- Witness for C10 at concrete inputs. -/
theorem kernel_init_spec_witness :
    (ActorCell.new 9 { name := "b", path := "/user/b", host := "localhost" }
        none sysW mbW smbW).kernel = none ∧
    (preInitCellW.init kW).kernel = some kW ∧
    (preInitCellW.init kW).children = preInitCellW.children ∧
    (preInitCellW.init kW).is_terminating = preInitCellW.is_terminating ∧
    (preInitCellW.init kW).is_restarting = preInitCellW.is_restarting ∧
    (preInitCellW.init kW).status = preInitCellW.status ∧
    preInitCellW.send_any_msg { tag := 0, one_shot := false } none = none ∧
    preInitCellW.send_sys_msg
      { msg := SystemMsg.command SystemCmd.stop, sender := none } = none ∧
    (preInitCellW.children = [] →
      preInitCellW.terminate (some ()) = none ∧ preInitCellW.restart = none) ∧
    (preInitCellW.is_child childW = true →
      Children.remove preInitCellW.children childW = [] →
      (preInitCellW.is_terminating = true ∨ preInitCellW.is_restarting = true) →
      preInitCellW.death_watch childW (some ()) = none) :=
  kernel_init_spec preInitCellW kW 9
    { name := "b", path := "/user/b", host := "localhost" } none sysW mbW smbW
    { tag := 0, one_shot := false } none
    { msg := SystemMsg.command SystemCmd.stop, sender := none } childW
    (some ()) rfl

/-- A childless terminating cell, used by the C5 counterexample. -/
def cellTermLeafW : ActorCell := { cellLeafW with is_terminating := true }

/-- C5 counterexample: a cell with `is_terminating = true` still
successfully registers a child — `add_child` inserts the entry into the
children map with no check of the terminating flag. -/
theorem add_child_while_terminating_cex :
    cellTermLeafW.is_terminating = true ∧
    (cellTermLeafW.add_child childW).children = [("c", childW)] ∧
    Children.lookup (cellTermLeafW.add_child childW).children "c" = some childW := by
  refine ⟨rfl, ?_, ?_⟩ <;> decide

/-- C5 amended: `add_child` inserts unconditionally — even on a cell
whose `is_terminating` flag is set it stores the entry under the child's
name; the invariant that terminating cells gain no children is not
enforced by `add_child` (it must come from its callers). -/
theorem add_child_unconditional (c : ActorCell) (r : BasicActorRef)
    (hterm : c.is_terminating = true) :
    Children.lookup (c.add_child r).children r.name = some r ∧
    (c.add_child r).is_terminating = true := by
  refine ⟨?_, by simp [ActorCell.add_child, hterm]⟩
  simpa [ActorCell.add_child] using ChildrenLemmas.lookup_add_self c.children r

/-- Witness for the amended C5 at concrete inputs. -/
theorem add_child_unconditional_witness :
    Children.lookup (cellTermLeafW.add_child childW).children childW.name = some childW ∧
    (cellTermLeafW.add_child childW).is_terminating = true :=
  add_child_unconditional cellTermLeafW childW rfl

/-- Embeds Rust `str::starts_with` on character lists. -/
def startsWithL : List Char → List Char → Bool
  | [], _ => true
  | _ :: _, [] => false
  | p :: ps, c :: cs => p == c && startsWithL ps cs

/-- Embeds Rust `str::replace(pat, "")` (the only replacement used in
`select`): every non-overlapping occurrence of `pat` is removed,
scanning left to right.  `fuel` bounds the recursion by the input
length; each step consumes at least one character, so the fuel never
runs out when it starts at the input length. -/
def replaceAllFuel (pat : List Char) : Nat → List Char → List Char
  | 0, s => s
  | _ + 1, [] => []
  | fuel + 1, c :: rest =>
    if startsWithL pat (c :: rest) then
      replaceAllFuel pat fuel (List.drop (pat.length - 1) rest)
    else c :: replaceAllFuel pat fuel rest

/-- Rust `s.replace(&pat, "")`. -/
def rustReplace (s pat : String) : String :=
  if pat.data.isEmpty then s
  else String.mk (replaceAllFuel pat.data s.data.length s.data)

/-- A selection bound to an anchor and a relative path. -/
structure ActorSelection where
  anchor : BasicActorRef
  path : String
deriving DecidableEq

/-- The invalid-path error (`crate::validate::InvalidPath`). -/
structure InvalidPath where
  path : String
deriving DecidableEq

/-- Splits a character list on slashes (accumulator of the current
segment, reversed). -/
def segsAux : List Char → List Char → List (List Char)
  | acc, [] => [acc.reverse]
  | acc, c :: rest =>
    if c = '/' then acc.reverse :: segsAux [] rest
    else segsAux (c :: acc) rest

/-- Modelled from the spec: path validation (`ActorSelection::new` and
`crate::validate`, not under src/) — per §6 names must be non-empty and
free of slashes, and invalid paths (the empty string included) yield
`InvalidPath`; a selection path is valid iff it is non-empty and every
slash-separated name is non-empty. -/
def validSelectPath (s : String) : Bool :=
  !s.data.isEmpty && (segsAux [] s.data).all (fun seg => !seg.isEmpty)

/-- Modelled from the spec: `ActorSelection::new` (crate::actor, not
under src/) binds the anchor and relative path, rejecting invalid
paths. -/
def ActorSelection.new (anchor : BasicActorRef) (path : String) :
    Except InvalidPath ActorSelection :=
  if validSelectPath path then Except.ok { anchor := anchor, path := path }
  else Except.error { path := path }

/-- The per-invocation context, with the typed self-reference flattened
to its identity (`select` converts it with `.into()` anyway). -/
structure Context where
  myself : BasicActorRef
  system : ActorSystem
  kernel : KernelRef

/-- `Context::select`: when the path starts with "/", anchor at the user
root and remove the anchor's `path() + "/"` from the input via
`str::replace`; otherwise anchor at `myself` with the path unchanged. -/
def Context.select (ctx : Context) (path : String) :
    Except InvalidPath ActorSelection :=
  if startsWithL ['/'] path.data then
    let anchor := ctx.system.user_root
    let anchor_path := anchor.path ++ "/"
    ActorSelection.new anchor (rustReplace path anchor_path)
  else
    ActorSelection.new ctx.myself path

/-- The spec's wording for the absolute-path case, as a second
definition for comparison with `Context.select`: the anchor's own path
(plus slash) is stripped from the input as a leading pattern only. -/
def specStripAnchor (anchorPath input : String) : String :=
  if startsWithL (anchorPath ++ "/").data input.data then
    String.mk (input.data.drop (anchorPath ++ "/").data.length)
  else input

/-- A context at /user/foo under the user root /user. -/
def ctx8 : Context :=
  { myself := { uid := 5, name := "foo", path := "/user/foo" },
    system := sysW, kernel := kW }

/-- C8 counterexample: selecting "/user/a/user/b" — an absolute path
whose child segment repeats the anchor path — removes every occurrence
of "/user/" (Rust `str::replace`), yielding relative path "ab", not the
prefix-stripped "a/user/b" the claim requires. -/
theorem select_replace_not_strip_cex :
    ctx8.select "/user/a/user/b" =
      Except.ok { anchor := sysW.user_root, path := "ab" } ∧
    specStripAnchor "/user" "/user/a/user/b" = "a/user/b" ∧
    ("ab" : String) ≠ "a/user/b" := by
  refine ⟨rfl, rfl, by decide⟩

/-- C8 amended: for paths starting with "/" the anchor is the user root
and the relative path is the input with every occurrence of the anchor's
`path + "/"` removed (Rust `str::replace`, which agrees with prefix
stripping only when the pattern occurs just once, leading); other paths
anchor at `myself` unchanged; the empty path yields `InvalidPath`; the
spec's two concrete examples hold. -/
theorem select_spec (ctx : Context) (path : String) :
    (startsWithL ['/'] path.data = true →
      ctx.select path =
        ActorSelection.new ctx.system.user_root
          (rustReplace path (ctx.system.user_root.path ++ "/"))) ∧
    (startsWithL ['/'] path.data = false →
      ctx.select path = ActorSelection.new ctx.myself path) ∧
    ctx.select "" = Except.error { path := "" } ∧
    ctx8.select "/user/foo/bar" =
      Except.ok { anchor := sysW.user_root, path := "foo/bar" } ∧
    ctx8.select "child" =
      Except.ok { anchor := ctx8.myself, path := "child" } := by
  refine ⟨?_, ?_, ?_, rfl, rfl⟩
  · intro h; simp [Context.select, h]
  · intro h; simp [Context.select, h]
  · rfl

/-- Witness for the amended C8 at concrete inputs. -/
theorem select_spec_witness :
    ctx8.select "/user/x" =
      ActorSelection.new ctx8.system.user_root
        (rustReplace "/user/x" (ctx8.system.user_root.path ++ "/")) :=
  (select_spec ctx8 "/user/x").1 (by decide)

end Riker
